import Mathlib

/-!
Verification of the dynamic resource operation engine in
litmus-portal/cluster-agents/subscriber/pkg/k8s/operations.go.

The Go file drives a Kubernetes dynamic client: it decodes a manifest,
resolves its kind and version against the discovery catalog, binds a
resource handle scoped to a namespace (or cluster-wide), special-cases
Workflow and CronWorkflow objects by re-targeting them through a label
lookup, and then dispatches create / update / get / delete with
existence-aware semantics.

The embedding below mirrors the Go functions over explicit oracle values
for the external collaborators (the dynamic client, the discovery client,
the decoder).  Go function results of shape (ptr, error) become
(Option Unstructured x Option KErr); every interaction with the backing
store is additionally journaled as a list of StoreCall values so that
claims of the form "no call is made" are statable.  The Go panic on
indexing an empty slice is modelled as an explicit OpOutcome.panic value.
-/

/-- Errors surfaced by the Kubernetes backing store, as distinguished by
the Go code via errors.IsAlreadyExists / errors.IsNotFound; every other
error is an opaque message. -/
inductive KErr where
  | alreadyExists
  | notFound
  | other (msg : String)
deriving DecidableEq, Repr

/-- The canonical decoded generic object (unstructured.Unstructured): the
fields the Go code reads or writes (GetKind, GetName / SetName, GetLabels,
SetResourceVersion); everything else in the document is opaque. -/
structure Unstructured where
  kind : String
  apiVersion : String
  name : String
  labels : List (String × String)
  resourceVersion : String
deriving DecidableEq, Repr

/-- The empty object literal the Go delete branch returns on success. -/
def Unstructured.empty : Unstructured :=
  { kind := "", apiVersion := "", name := "", labels := [], resourceVersion := "" }

/-- Go map indexing: missing keys yield the zero value, the empty string. -/
def lookupD (l : List (String × String)) (k : String) : String :=
  match l.find? (fun p => p.1 == k) with
  | some p => p.2
  | none => ""

/-- One call issued against the bound dynamic resource handle. -/
inductive StoreCall where
  | create (obj : Unstructured)
  | get (name : String)
  | update (obj : Unstructured)
  | delete (name : String)
  | list (labelSelector : String)
deriving DecidableEq, Repr

/-- The bound dynamic resource handle (dynamic.ResourceInterface as the Go
code consumes it): an oracle giving the backing-store response to each
request. -/
structure ResourceInterface where
  create : Unstructured → Except KErr Unstructured
  get : String → Except KErr Unstructured
  update : Unstructured → Except KErr Unstructured
  delete : String → Except KErr Unit
  list : String → Except KErr (List Unstructured)

/-- Embedding of applyRequest: dispatch on the verb string with the
existence-aware semantics of the source, returning the (object, error)
pair together with the journal of backing-store calls made. -/
def applyRequest (dr : ResourceInterface) (requestType : String) (obj : Unstructured) :
    (Option Unstructured × Option KErr) × List StoreCall :=
  if requestType = "create" then
    match dr.create obj with
    | .error .alreadyExists => ((none, none), [.create obj])
    | .error e => ((none, some e), [.create obj])
    | .ok response => ((some response, none), [.create obj])
  else if requestType = "update" then
    match dr.get obj.name with
    | .error .notFound => ((none, none), [.get obj.name])
    | .error e => ((none, some e), [.get obj.name])
    | .ok getObj =>
      let obj' := { obj with resourceVersion := getObj.resourceVersion }
      match dr.update obj' with
      | .error e => ((none, some e), [.get obj.name, .update obj'])
      | .ok response => ((some response, none), [.get obj.name, .update obj'])
  else if requestType = "delete" then
    match dr.delete obj.name with
    | .error .notFound => ((none, none), [.delete obj.name])
    | .error e => ((none, some e), [.delete obj.name])
    | .ok _ => ((some Unstructured.empty, none), [.delete obj.name])
  else if requestType = "get" then
    match dr.get obj.name with
    | .error .notFound => ((none, none), [.get obj.name])
    | .error e => ((none, some e), [.get obj.name])
    | .ok response => ((some response, none), [.get obj.name])
  else
    ((none, some (.other "err: Invalid Request\n")), [])

/-- Group / version / kind triple returned by the decoder. -/
structure GVK where
  group : String
  version : String
  kind : String
deriving DecidableEq, Repr

/-- One entry of the discovery catalog: a kind with its plural resource
name and scope (namespaced or cluster-wide). -/
structure APIResourceEntry where
  group : String
  version : String
  kind : String
  resource : String
  namespaced : Bool
deriving DecidableEq, Repr

/-- The resolved REST mapping: plural resource name and scope. -/
structure RESTMapping where
  resource : String
  namespaced : Bool
deriving DecidableEq, Repr

/-- State of the memoizing discovery cache (memory.NewMemCacheClient). -/
structure MemCache where
  filled : Bool
  entries : List APIResourceEntry
deriving DecidableEq, Repr

/-- A fresh, unfilled cache, as constructed inside ClusterOperations. -/
def newMemCacheClient : MemCache := { filled := false, entries := [] }

/-- Fetch the catalog through the cache: a filled cache answers locally
(0 discovery queries), an unfilled one queries the catalog once and
memoizes it.  The third component counts discovery queries issued. -/
def cacheFetch (catalog : List APIResourceEntry) (c : MemCache) :
    List APIResourceEntry × MemCache × Nat :=
  if c.filled then (c.entries, c, 0)
  else (catalog, { filled := true, entries := catalog }, 1)

/-- mapper.RESTMapping: resolve group/kind plus version to a RESTMapping
through the deferred discovery cache, reporting the updated cache and the
number of discovery queries issued. -/
def restMapping (catalog : List APIResourceEntry) (c : MemCache)
    (g k v : String) : Except KErr RESTMapping × MemCache × Nat :=
  let r := cacheFetch catalog c
  match r.1.find? (fun e => e.group == g && e.kind == k && e.version == v) with
  | some e => (.ok { resource := e.resource, namespaced := e.namespaced }, r.2.1, r.2.2)
  | none => (.error (.other ("no matches for kind " ++ k)), r.2.1, r.2.2)

/-- Final status of one ClusterOperations call: either a Go-style
(object, error) return, or a runtime panic (index out of range). -/
inductive OpOutcome where
  | ret (obj : Option Unstructured) (err : Option KErr)
  | panic (msg : String)
deriving DecidableEq, Repr

/-- Result of one ClusterOperations call: its outcome, the journal of
backing-store calls, and the number of discovery queries issued. -/
structure OpsResult where
  outcome : OpOutcome
  calls : List StoreCall
  queries : Nat
deriving DecidableEq, Repr

/-- The external collaborators of ClusterOperations, as oracles:
JSONToYAML, the client constructor, the discovery catalog, the YAML
decoder, and the dynamic client (plural resource name and optional
namespace to a bound handle). -/
structure ClusterEnv where
  jsonToYaml : String → Except KErr String
  clients : Except KErr Unit
  catalog : List APIResourceEntry
  decode : String → Except KErr (Unstructured × GVK)
  dyn : String → Option String → ResourceInterface

/-- The tail of ClusterOperations after the handle is bound: the
Workflow / CronWorkflow label re-targeting followed by applyRequest.
A list error is returned as (nil, nil); a successful but empty list makes
the Go code index pods.Items[0], a panic. -/
def dispatchWithHandle (dr : ResourceInterface) (requestType : String)
    (obj : Unstructured) (q : Nat) : OpsResult :=
  if obj.kind = "CronWorkflow" ∨ obj.kind = "Workflow" then
    let sel := lookupD obj.labels "workflow_id"
    match dr.list sel with
    | .error _ => { outcome := .ret none none, calls := [.list sel], queries := q }
    | .ok pods =>
      match pods with
      | [] => { outcome := .panic "index out of range", calls := [.list sel], queries := q }
      | p :: _ =>
        let r := applyRequest dr requestType { obj with name := p.name }
        { outcome := .ret r.1.1 r.1.2, calls := .list sel :: r.2, queries := q }
  else
    let r := applyRequest dr requestType obj
    { outcome := .ret r.1.1 r.1.2, calls := r.2, queries := q }

/-- Embedding of ClusterOperations: JSON-to-YAML conversion, client
construction, a fresh discovery cache, decode, REST mapping, scope-aware
handle binding, then dispatchWithHandle. -/
def ClusterOperations (env : ClusterEnv) (manifest requestType ns : String) :
    OpsResult :=
  match env.jsonToYaml manifest with
  | .error e => { outcome := .ret none (some e), calls := [], queries := 0 }
  | .ok yamlStr =>
    match env.clients with
    | .error e => { outcome := .ret none (some e), calls := [], queries := 0 }
    | .ok _ =>
      match env.decode yamlStr with
      | .error e => { outcome := .ret none (some e), calls := [], queries := 0 }
      | .ok (obj, gvk) =>
        match restMapping env.catalog newMemCacheClient gvk.group gvk.kind gvk.version with
        | (.error e, _, q) => { outcome := .ret none (some e), calls := [], queries := q }
        | (.ok mapping, _, q) =>
          let dr := if mapping.namespaced then env.dyn mapping.resource (some ns)
                    else env.dyn mapping.resource none
          dispatchWithHandle dr requestType obj q

/-- Embedding of IsClusterConfirmed.  The client constructor may fail;
otherwise the ConfigMap read yields either data, a not-found error, or
another error.  On error the Go typed client hands back the zero-value
ConfigMap, whose Data map indexes to the empty string. -/
def IsClusterConfirmed (clientRes : Except KErr Unit)
    (getRes : Except KErr (List (String × String))) :
    Bool × String × Option KErr :=
  match clientRes with
  | .error e => (false, "", some e)
  | .ok _ =>
    let getCM : List (String × String) :=
      match getRes with
      | .ok d => d
      | .error _ => []
    let err : Option KErr :=
      match getRes with
      | .ok _ => none
      | .error e => some e
    if err = some KErr.notFound then (false, "", none)
    else if lookupD getCM "is_cluster_confirmed" = "true" then
      (true, lookupD getCM "cluster_key", none)
    else if err.isSome then (false, "", err)
    else (false, "", none)

/-! Concrete fixtures used by witnesses and counterexamples. -/

/-- A ConfigMap manifest object (the scenario object of the spec). -/
def cfgObj : Unstructured :=
  { kind := "ConfigMap", apiVersion := "v1", name := "cfg1", labels := [],
    resourceVersion := "" }

/-- A Workflow manifest object carrying a workflow_id label. -/
def wfObj : Unstructured :=
  { kind := "Workflow", apiVersion := "argoproj.io/v1alpha1", name := "",
    labels := [("workflow_id", "wid-1")], resourceVersion := "" }

/-- A cluster-wide manifest object (a ClusterRole). -/
def crObj : Unstructured :=
  { kind := "ClusterRole", apiVersion := "rbac.authorization.k8s.io/v1",
    name := "role1", labels := [], resourceVersion := "" }

def cfgGVK : GVK := { group := "", version := "v1", kind := "ConfigMap" }

def wfGVK : GVK := { group := "argoproj.io", version := "v1alpha1", kind := "Workflow" }

def crGVK : GVK := { group := "rbac.authorization.k8s.io", version := "v1", kind := "ClusterRole" }

/-- A discovery catalog with a namespaced kind, the Workflow kind and a
cluster-wide kind. -/
def catalogEx : List APIResourceEntry :=
  [ { group := "", version := "v1", kind := "ConfigMap", resource := "configmaps",
      namespaced := true },
    { group := "argoproj.io", version := "v1alpha1", kind := "Workflow",
      resource := "workflows", namespaced := true },
    { group := "rbac.authorization.k8s.io", version := "v1", kind := "ClusterRole",
      resource := "clusterroles", namespaced := false } ]

/-- A handle whose every request succeeds. -/
def drOkCfg : ResourceInterface :=
  { create := fun o => .ok o, get := fun _ => .ok cfgObj, update := fun o => .ok o,
    delete := fun _ => .ok (), list := fun _ => .ok [cfgObj] }

/-- A handle reporting already-exists on create and not-found elsewhere. -/
def drExists : ResourceInterface :=
  { create := fun _ => .error .alreadyExists, get := fun _ => .error .notFound,
    update := fun _ => .error .notFound, delete := fun _ => .error .notFound,
    list := fun _ => .ok [] }

/-- A handle whose list request yields a successful but empty listing. -/
def drEmptyList : ResourceInterface :=
  { create := fun o => .ok o, get := fun _ => .ok cfgObj, update := fun o => .ok o,
    delete := fun _ => .ok (), list := fun _ => .ok [] }

/-- A handle whose list request fails with a permission error. -/
def drListErr : ResourceInterface :=
  { create := fun o => .ok o, get := fun _ => .ok cfgObj, update := fun o => .ok o,
    delete := fun _ => .ok (), list := fun _ => .error (.other "permission denied") }

/-- A handle whose every request fails with an opaque error. -/
def drBoom : ResourceInterface :=
  { create := fun _ => .error (.other "boom"), get := fun _ => .error (.other "boom"),
    update := fun _ => .error (.other "boom"), delete := fun _ => .error (.other "boom"),
    list := fun _ => .error (.other "boom") }

/-- A cluster environment whose decoder recognises three fixed manifests
and whose dynamic client always hands back the given handle. -/
def mkEnv (dr : ResourceInterface) : ClusterEnv :=
  { jsonToYaml := fun s => .ok s,
    clients := .ok (),
    catalog := catalogEx,
    decode := fun s =>
      if s = "wf" then .ok (wfObj, wfGVK)
      else if s = "cm" then .ok (cfgObj, cfgGVK)
      else if s = "cr" then .ok (crObj, crGVK)
      else .error (.other "decode error"),
    dyn := fun _ _ => dr }

/-- The registration record of the spec scenario. -/
def portalRecord : List (String × String) :=
  [("is_cluster_confirmed", "true"), ("cluster_key", "abc"), ("cluster_id", "123")]

/-! Unfolding lemmas: applyRequest on each concrete verb string. -/

theorem applyRequest_create_eq (dr : ResourceInterface) (obj : Unstructured) :
    applyRequest dr "create" obj =
      match dr.create obj with
      | .error .alreadyExists => ((none, none), [.create obj])
      | .error e => ((none, some e), [.create obj])
      | .ok response => ((some response, none), [.create obj]) := rfl

theorem applyRequest_update_eq (dr : ResourceInterface) (obj : Unstructured) :
    applyRequest dr "update" obj =
      match dr.get obj.name with
      | .error .notFound => ((none, none), [.get obj.name])
      | .error e => ((none, some e), [.get obj.name])
      | .ok getObj =>
        match dr.update { obj with resourceVersion := getObj.resourceVersion } with
        | .error e => ((none, some e),
            [.get obj.name, .update { obj with resourceVersion := getObj.resourceVersion }])
        | .ok response => ((some response, none),
            [.get obj.name, .update { obj with resourceVersion := getObj.resourceVersion }]) := rfl

theorem applyRequest_delete_eq (dr : ResourceInterface) (obj : Unstructured) :
    applyRequest dr "delete" obj =
      match dr.delete obj.name with
      | .error .notFound => ((none, none), [.delete obj.name])
      | .error e => ((none, some e), [.delete obj.name])
      | .ok _ => ((some Unstructured.empty, none), [.delete obj.name]) := rfl

theorem applyRequest_get_eq (dr : ResourceInterface) (obj : Unstructured) :
    applyRequest dr "get" obj =
      match dr.get obj.name with
      | .error .notFound => ((none, none), [.get obj.name])
      | .error e => ((none, some e), [.get obj.name])
      | .ok response => ((some response, none), [.get obj.name]) := rfl

/-- Claim C3: on verb create, a backing-store already-exists report makes
applyRequest return the benign no-op result (nil object, nil error) rather
than an error, and a successful create also carries a nil error; hence
re-applying the same manifest with verb create never returns an error. -/
theorem applyRequest_create_idempotent (dr : ResourceInterface) (obj : Unstructured) :
    (dr.create obj = Except.error KErr.alreadyExists →
      applyRequest dr "create" obj = ((none, none), [StoreCall.create obj])) ∧
    (∀ r, dr.create obj = Except.ok r →
      (applyRequest dr "create" obj).1.2 = none) := by
  constructor
  · intro h
    rw [applyRequest_create_eq, h]
  · intro r h
    rw [applyRequest_create_eq, h]

/-- Witness for C3 at the already-exists handle and the succeeding handle. -/
theorem applyRequest_create_idempotent_witness :
    applyRequest drExists "create" cfgObj = ((none, none), [StoreCall.create cfgObj]) ∧
    (applyRequest drOkCfg "create" cfgObj).1.2 = none := by
  exact ⟨(applyRequest_create_idempotent drExists cfgObj).1 rfl,
         (applyRequest_create_idempotent drOkCfg cfgObj).2 cfgObj rfl⟩

/-- Claim C4: on verb update, applyRequest first performs a get by the
object name; a not-found report yields the benign no-op result with no
update submitted, and otherwise the live resource-version stamp is copied
onto the submitted object before the update is submitted. -/
theorem applyRequest_update_get_first (dr : ResourceInterface) (obj : Unstructured) :
    (dr.get obj.name = Except.error KErr.notFound →
      applyRequest dr "update" obj = ((none, none), [StoreCall.get obj.name])) ∧
    (∀ g, dr.get obj.name = Except.ok g →
      (applyRequest dr "update" obj).2 =
        [StoreCall.get obj.name,
         StoreCall.update { obj with resourceVersion := g.resourceVersion }]) := by
  constructor
  · intro h
    rw [applyRequest_update_eq, h]
  · intro g h
    rw [applyRequest_update_eq, h]
    cases hu : dr.update { obj with resourceVersion := g.resourceVersion } <;> simp [hu]

/-- Witness for C4 at the absent-target handle and the succeeding handle. -/
theorem applyRequest_update_get_first_witness :
    applyRequest drExists "update" cfgObj = ((none, none), [StoreCall.get "cfg1"]) ∧
    (applyRequest drOkCfg "update" cfgObj).2 =
      [StoreCall.get "cfg1", StoreCall.update cfgObj] := by
  exact ⟨(applyRequest_update_get_first drExists cfgObj).1 rfl,
         (applyRequest_update_get_first drOkCfg cfgObj).2 cfgObj rfl⟩

/-- Claim C5: on verbs get and delete a not-found report yields the benign
no-op result (nil, nil) rather than an error, and a successful delete
returns the empty placeholder object. -/
theorem applyRequest_get_delete_benign (dr : ResourceInterface) (obj : Unstructured) :
    (dr.get obj.name = Except.error KErr.notFound →
      applyRequest dr "get" obj = ((none, none), [StoreCall.get obj.name])) ∧
    (dr.delete obj.name = Except.error KErr.notFound →
      applyRequest dr "delete" obj = ((none, none), [StoreCall.delete obj.name])) ∧
    (∀ u, dr.delete obj.name = Except.ok u →
      applyRequest dr "delete" obj =
        ((some Unstructured.empty, none), [StoreCall.delete obj.name])) := by
  refine ⟨fun h => ?_, fun h => ?_, fun u h => ?_⟩
  · rw [applyRequest_get_eq, h]
  · rw [applyRequest_delete_eq, h]
  · rw [applyRequest_delete_eq, h]

/-- Witness for C5 at the absent-target handle and the succeeding handle. -/
theorem applyRequest_get_delete_benign_witness :
    applyRequest drExists "get" cfgObj = ((none, none), [StoreCall.get "cfg1"]) ∧
    applyRequest drExists "delete" cfgObj = ((none, none), [StoreCall.delete "cfg1"]) ∧
    applyRequest drOkCfg "delete" cfgObj =
      ((some Unstructured.empty, none), [StoreCall.delete "cfg1"]) := by
  exact ⟨(applyRequest_get_delete_benign drExists cfgObj).1 rfl,
         (applyRequest_get_delete_benign drExists cfgObj).2.1 rfl,
         (applyRequest_get_delete_benign drOkCfg cfgObj).2.2 () rfl⟩

/-- Claim C10: any verb outside create, update, delete, get falls through
to the Invalid Request error with a nil object and no backing-store call. -/
theorem applyRequest_invalid_verb (dr : ResourceInterface) (v : String) (obj : Unstructured)
    (h1 : v ≠ "create") (h2 : v ≠ "update") (h3 : v ≠ "delete") (h4 : v ≠ "get") :
    applyRequest dr v obj =
      ((none, some (KErr.other "err: Invalid Request\n")), []) := by
  unfold applyRequest
  rw [if_neg h1, if_neg h2, if_neg h3, if_neg h4]

/-- Witness for C10 at the unsupported verb patch. -/
theorem applyRequest_invalid_verb_witness :
    applyRequest drOkCfg "patch" cfgObj =
      ((none, some (KErr.other "err: Invalid Request\n")), []) :=
  applyRequest_invalid_verb drOkCfg "patch" cfgObj
    (by decide) (by decide) (by decide) (by decide)

/-- Counterexample to C2 as stated: against a handle whose list request
fails with a permission error, the Workflow-manifest call returns a nil
error (the outcome is the (nil, nil) pair), so the list error is not
propagated to the caller. -/
theorem clusterOperations_list_error_swallowed :
    ClusterOperations (mkEnv drListErr) "wf" "create" "litmus" =
      { outcome := OpOutcome.ret none none,
        calls := [StoreCall.list "wid-1"], queries := 1 } := rfl

/-- Claim C2 amended: every backing-store error other than already-exists
on create and not-found on update, get and delete is returned unchanged by
the verb dispatch, but an error from the list request performed during
label-addressed target resolution is swallowed: the call returns a nil
object and a nil error. -/
theorem applyRequest_propagates_other_errors (dr : ResourceInterface)
    (obj : Unstructured) (e : KErr) :
    (e ≠ KErr.alreadyExists → dr.create obj = Except.error e →
      applyRequest dr "create" obj = ((none, some e), [StoreCall.create obj])) ∧
    (e ≠ KErr.notFound → dr.get obj.name = Except.error e →
      applyRequest dr "update" obj = ((none, some e), [StoreCall.get obj.name]) ∧
      applyRequest dr "get" obj = ((none, some e), [StoreCall.get obj.name])) ∧
    (∀ g, dr.get obj.name = Except.ok g →
      dr.update { obj with resourceVersion := g.resourceVersion } = Except.error e →
      applyRequest dr "update" obj =
        ((none, some e), [StoreCall.get obj.name,
          StoreCall.update { obj with resourceVersion := g.resourceVersion }])) ∧
    (e ≠ KErr.notFound → dr.delete obj.name = Except.error e →
      applyRequest dr "delete" obj = ((none, some e), [StoreCall.delete obj.name])) ∧
    (∀ v q, (obj.kind = "CronWorkflow" ∨ obj.kind = "Workflow") →
      dr.list (lookupD obj.labels "workflow_id") = Except.error e →
      dispatchWithHandle dr v obj q =
        { outcome := OpOutcome.ret none none,
          calls := [StoreCall.list (lookupD obj.labels "workflow_id")],
          queries := q }) := by
  refine ⟨fun hne h => ?_, fun hne h => ?_, fun g hg hu => ?_,
          fun hne h => ?_, fun v q hk hl => ?_⟩
  · rw [applyRequest_create_eq, h]
    cases e with
    | alreadyExists => exact absurd rfl hne
    | notFound => rfl
    | other m => rfl
  · constructor
    · rw [applyRequest_update_eq, h]
      cases e with
      | alreadyExists => rfl
      | notFound => exact absurd rfl hne
      | other m => rfl
    · rw [applyRequest_get_eq, h]
      cases e with
      | alreadyExists => rfl
      | notFound => exact absurd rfl hne
      | other m => rfl
  · rw [applyRequest_update_eq, hg]
    simp [hu]
  · rw [applyRequest_delete_eq, h]
    cases e with
    | alreadyExists => rfl
    | notFound => exact absurd rfl hne
    | other m => rfl
  · unfold dispatchWithHandle
    rw [if_pos hk]
    simp [hl]

/-- Witness for the amended C2: a create error is propagated verbatim and
a list error during Workflow re-targeting is swallowed into (nil, nil). -/
theorem applyRequest_propagates_other_errors_witness :
    applyRequest drBoom "create" cfgObj =
      ((none, some (KErr.other "boom")), [StoreCall.create cfgObj]) ∧
    dispatchWithHandle drListErr "get" wfObj 1 =
      { outcome := OpOutcome.ret none none,
        calls := [StoreCall.list "wid-1"], queries := 1 } := by
  constructor
  · exact (applyRequest_propagates_other_errors drBoom cfgObj (KErr.other "boom")).1
      (by decide) rfl
  · exact (applyRequest_propagates_other_errors drListErr wfObj
      (KErr.other "permission denied")).2.2.2.2 "get" 1 (Or.inr rfl) rfl

/-- Claim C7: the registration-state check returns (true, cluster_key, nil)
when the record exists with the confirmed flag set to true, (false, empty,
nil) when the record is absent, and (false, empty, err) on any other read
error. -/
theorem isClusterConfirmed_cases (d : List (String × String)) (e : KErr) :
    (lookupD d "is_cluster_confirmed" = "true" →
      IsClusterConfirmed (Except.ok ()) (Except.ok d) =
        (true, lookupD d "cluster_key", none)) ∧
    IsClusterConfirmed (Except.ok ()) (Except.error KErr.notFound) = (false, "", none) ∧
    (e ≠ KErr.notFound →
      IsClusterConfirmed (Except.ok ()) (Except.error e) = (false, "", some e)) := by
  refine ⟨fun h => ?_, rfl, fun hne => ?_⟩
  · unfold IsClusterConfirmed
    simp [h]
  · unfold IsClusterConfirmed
    cases e with
    | notFound => exact absurd rfl hne
    | alreadyExists => rfl
    | other m => rfl

/-- Witness for C7 at the spec scenario record and an opaque read error. -/
theorem isClusterConfirmed_cases_witness :
    IsClusterConfirmed (Except.ok ()) (Except.ok portalRecord) = (true, "abc", none) ∧
    IsClusterConfirmed (Except.ok ()) (Except.error (KErr.other "boom")) =
      (false, "", some (KErr.other "boom")) := by
  exact ⟨(isClusterConfirmed_cases portalRecord (KErr.other "boom")).1 rfl,
         (isClusterConfirmed_cases portalRecord (KErr.other "boom")).2.2 (by decide)⟩

/-- Claim C1 evaluated at the failing input: against a handle whose list
request succeeds with an empty listing, the Workflow-manifest call indexes
the first element of the empty item slice and panics (index out of range);
no TargetNotFound error is produced, though the dispatch is indeed never
reached. -/
theorem clusterOperations_empty_list_panics :
    ClusterOperations (mkEnv drEmptyList) "wf" "get" "litmus" =
      { outcome := OpOutcome.panic "index out of range",
        calls := [StoreCall.list "wid-1"], queries := 1 } := rfl

/-- Counterexample to C6 as stated: a namespaced manifest submitted with
the empty namespace string is not rejected; the handle is bound to the
empty namespace and the get is dispatched and succeeds. -/
theorem clusterOperations_empty_ns_dispatches :
    ClusterOperations (mkEnv drOkCfg) "cm" "get" "" =
      { outcome := OpOutcome.ret (some cfgObj) none,
        calls := [StoreCall.get "cfg1"], queries := 1 } := rfl

/-- Claim C6 amended: no namespace validation is performed; for a
namespaced descriptor the call binds the handle to whatever namespace
string was given, the empty string included, and proceeds to dispatch. -/
theorem clusterOperations_namespaced_no_validation (env : ClusterEnv)
    (manifest v ns y : String) (obj : Unstructured) (gvk : GVK)
    (mp : RESTMapping) (c : MemCache) (q : Nat)
    (h1 : env.jsonToYaml manifest = Except.ok y)
    (h2 : env.clients = Except.ok ())
    (h3 : env.decode y = Except.ok (obj, gvk))
    (h4 : restMapping env.catalog newMemCacheClient gvk.group gvk.kind gvk.version =
      (Except.ok mp, c, q))
    (h5 : mp.namespaced = true) :
    ClusterOperations env manifest v ns =
      dispatchWithHandle (env.dyn mp.resource (some ns)) v obj q := by
  unfold ClusterOperations
  simp only [h1, h2, h3, h4]
  simp [h5]

/-- Witness for the amended C6 at the empty namespace. -/
theorem clusterOperations_namespaced_no_validation_witness :
    ClusterOperations (mkEnv drOkCfg) "cm" "get" "" =
      dispatchWithHandle ((mkEnv drOkCfg).dyn "configmaps" (some "")) "get" cfgObj 1 :=
  clusterOperations_namespaced_no_validation (mkEnv drOkCfg) "cm" "get" "" "cm"
    cfgObj cfgGVK { resource := "configmaps", namespaced := true }
    { filled := true, entries := catalogEx } 1 rfl rfl rfl rfl rfl

/-- Claim C9: for a cluster-wide descriptor the namespace argument is
ignored: the handle is bound with no namespace and two calls differing
only in the namespace string produce identical results. -/
theorem clusterOperations_clusterwide_ns_independent (env : ClusterEnv)
    (manifest v ns1 ns2 y : String) (obj : Unstructured) (gvk : GVK)
    (mp : RESTMapping) (c : MemCache) (q : Nat)
    (h1 : env.jsonToYaml manifest = Except.ok y)
    (h2 : env.clients = Except.ok ())
    (h3 : env.decode y = Except.ok (obj, gvk))
    (h4 : restMapping env.catalog newMemCacheClient gvk.group gvk.kind gvk.version =
      (Except.ok mp, c, q))
    (h5 : mp.namespaced = false) :
    ClusterOperations env manifest v ns1 =
      dispatchWithHandle (env.dyn mp.resource none) v obj q ∧
    ClusterOperations env manifest v ns1 = ClusterOperations env manifest v ns2 := by
  have key : ∀ ns : String, ClusterOperations env manifest v ns =
      dispatchWithHandle (env.dyn mp.resource none) v obj q := by
    intro ns
    unfold ClusterOperations
    simp only [h1, h2, h3, h4]
    simp [h5]
  exact ⟨key ns1, (key ns1).trans (key ns2).symm⟩

/-- Witness for C9 at a ClusterRole manifest under two namespaces. -/
theorem clusterOperations_clusterwide_ns_independent_witness :
    ClusterOperations (mkEnv drOkCfg) "cr" "get" "nsA" =
      ClusterOperations (mkEnv drOkCfg) "cr" "get" "nsB" :=
  (clusterOperations_clusterwide_ns_independent (mkEnv drOkCfg) "cr" "get" "nsA" "nsB"
    "cr" crObj crGVK { resource := "clusterroles", namespaced := false }
    { filled := true, entries := catalogEx } 1 rfl rfl rfl rfl rfl).2

/-! Helper lemmas for the discovery-query count. -/

theorem dispatchWithHandle_queries (dr : ResourceInterface) (v : String)
    (obj : Unstructured) (q : Nat) : (dispatchWithHandle dr v obj q).queries = q := by
  unfold dispatchWithHandle
  split
  · cases h : dr.list (lookupD obj.labels "workflow_id") with
    | error e => simp [h]
    | ok pods => cases pods <;> simp [h]
  · rfl

theorem restMapping_fresh_queries (catalog : List APIResourceEntry) (g k v : String) :
    (restMapping catalog newMemCacheClient g k v).2.2 = 1 := by
  cases hf : catalog.find? (fun e => e.group == g && e.kind == k && e.version == v) <;>
    simp [restMapping, cacheFetch, newMemCacheClient, hf]

/-- Counterexample to C8 as stated: the discovery cache is created afresh
inside each call, so two calls resolving the same kind and version issue
one discovery query each, and the two-call total of two exceeds the
claimed bound of at most one. -/
theorem clusterOperations_not_memoized_across_calls :
    ¬ ((ClusterOperations (mkEnv drOkCfg) "cm" "get" "ns1").queries +
        (ClusterOperations (mkEnv drOkCfg) "cm" "get" "ns1").queries ≤ 1) := by
  decide

/-- Claim C8 amended: memoization is per call, not per process: every
single ClusterOperations call issues at most one discovery query, so two
calls with the same kind and version issue at most one query each (up to
two in total), not at most one overall. -/
theorem clusterOperations_queries_le_one (env : ClusterEnv) (m v ns : String) :
    (ClusterOperations env m v ns).queries ≤ 1 := by
  unfold ClusterOperations
  cases h1 : env.jsonToYaml m with
  | error e => simp [h1]
  | ok y =>
    cases h2 : env.clients with
    | error e => simp [h1, h2]
    | ok u =>
      cases h3 : env.decode y with
      | error e => simp [h1, h2, h3]
      | ok p =>
        obtain ⟨obj, gvk⟩ := p
        have hq := restMapping_fresh_queries env.catalog gvk.group gvk.kind gvk.version
        rcases hR : restMapping env.catalog newMemCacheClient gvk.group gvk.kind gvk.version
          with ⟨res, c, q⟩
        have hq1 : q = 1 := by rw [hR] at hq; exact hq
        cases res with
        | error e => simp [h1, h2, h3, hR, hq1]
        | ok mp => simp [h1, h2, h3, hR, hq1, dispatchWithHandle_queries]
